import Mathlib

/-!
Shallow embedding of the Scrapebot automation script (`src/main.py`).

The script is a Telegram bot that drives a headless browser through two
pairing-code sites ("Levanter" and "Raganork").  The embedding below models,
directly from the source:

* the Python string primitives the script relies on (`str.strip`, the `in`
  substring test, `str.startswith`, slicing);
* `AD_BLOCK_DOMAINS` and `route_handler` (the request filter);
* `safe_click_and_correct` (the bounded self-correcting click retry);
* the extraction-validation checks of both automation tasks;
* the Raganork phone-number regex parse `^\+(\d+)(.*)$` and the
  single-leading-zero strip;
* the event traces of the two automation tasks (browser launch, steps,
  replies, teardown), with the try/except/finally structure made explicit.
-/

/-- Characters removed by Python's `str.strip()` with no argument
(ASCII whitespace; the script only ever strips ASCII text). -/
def isPySpace (c : Char) : Bool :=
  c = ' ' || c = '\t' || c = '\n' || c = '\r' || c = '\x0b' || c = '\x0c'

/-- Python `s.strip()`: remove leading and trailing whitespace. -/
def pyStrip (s : String) : String :=
  String.mk (((s.data.dropWhile isPySpace).reverse.dropWhile isPySpace).reverse)

/-- Does `needle` occur as a contiguous sublist of `hay`?  (Python's
`needle in hay` on strings, over the character lists.) -/
def subOccurs (needle : List Char) : List Char → Bool
  | [] => needle.isEmpty
  | c :: t => needle.isPrefixOf (c :: t) || subOccurs needle t

/-- Python's substring test `needle in hay`. -/
def pyIn (needle hay : String) : Bool :=
  subOccurs needle.data hay.data

/-- The list `AD_BLOCK_DOMAINS` from `src/main.py`: keywords whose presence anywhere in
a request URL causes the request to be aborted. -/
def AD_BLOCK_DOMAINS : List String :=
  ["google-analytics", "doubleclick", "adservice", "googlesyndication",
   "facebook.com/tr", "hotjar", "analytics", "cloudflareinsights",
   "fonts.gstatic.com", "yandex", "popup", "ad", "redirect"]

/-- The function `route_handler` from `src/main.py`, as the block/allow decision it makes:
`true` means the request is aborted (`route.abort()`), `false` means it is
allowed to continue (`route.continue_()`). -/
def route_handler (resource_type url : String) : Bool :=
  let is_non_essential := (["image", "font", "media", "stylesheet"] : List String).contains resource_type
  let is_ad_or_tracker := AD_BLOCK_DOMAINS.any (fun ad_domain => pyIn ad_domain url)
  is_non_essential || is_ad_or_tracker

example : pyIn "ad" "upload" = true := by decide
example : route_handler "image" "https://x.io/a.png" = true := by decide
example : route_handler "xhr" "https://x.io/q" = false := by decide
example : route_handler "document" "https://levanter-delta.vercel.app/upload" = true := by decide
example : pyStrip " AB12CD " = "AB12CD" := by decide

/-- The constant `MAX_ATTEMPTS` from `safe_click_and_correct` in `src/main.py`. -/
def MAX_ATTEMPTS : Nat := 3

/-- The possible outcomes of one click attempt inside
`safe_click_and_correct`: the page stays on the expected URL prefix
(`page.url.startswith(target_page_url)` is true), the page is redirected
elsewhere, or the click (or any statement of the attempt) raises. -/
inductive ClickRes where
  | home
  | redirected
  | raises
  deriving DecidableEq, Repr

/-- How an invocation of `safe_click_and_correct` ends: returns `True`,
raises the `TimeoutError` about constant redirection (the attempt bound was
exceeded), or re-raises an exception from within an attempt. -/
inductive GuardResult where
  | success
  | redirectLoopExceeded
  | hardFailure
  deriving DecidableEq, Repr

/-- Observable effects of one invocation of `safe_click_and_correct`:
how many `page.click` calls and how many `page.go_back` calls were issued,
and how the invocation ended. -/
structure GuardTrace where
  clicks : Nat
  goBacks : Nat
  result : GuardResult
  deriving DecidableEq, Repr

/-- The function `safe_click_and_correct` from `src/main.py`, abstracted over the
behaviour `click` of each numbered attempt.  The function first checks
`attempt > MAX_ATTEMPTS` and raises; otherwise it clicks, and either stays
on the expected prefix (success), is redirected (`page.go_back()` then a
recursive call with `attempt + 1`), or an exception is raised during the
attempt, which the `except` clause logs and re-raises. -/
def safe_click_and_correct (click : Nat → ClickRes) (attempt : Nat) : GuardTrace :=
  if h : attempt > MAX_ATTEMPTS then
    ⟨0, 0, GuardResult.redirectLoopExceeded⟩
  else
    match click attempt with
    | ClickRes.home => ⟨1, 0, GuardResult.success⟩
    | ClickRes.raises => ⟨1, 0, GuardResult.hardFailure⟩
    | ClickRes.redirected =>
        let r := safe_click_and_correct click (attempt + 1)
        ⟨r.clicks + 1, r.goBacks + 1, r.result⟩
termination_by MAX_ATTEMPTS + 1 - attempt
decreasing_by simp only [MAX_ATTEMPTS, Nat.not_lt] at h ⊢; omega

example :
    safe_click_and_correct (fun _ => ClickRes.redirected) 1 =
      ⟨3, 3, GuardResult.redirectLoopExceeded⟩ := by
  simp [safe_click_and_correct, MAX_ATTEMPTS]

example :
    safe_click_and_correct (fun n => if n = 1 then ClickRes.redirected else ClickRes.home) 1 =
      ⟨2, 1, GuardResult.success⟩ := by
  simp [safe_click_and_correct, MAX_ATTEMPTS]

/-- The extraction-validation step of the Levanter task (`src/main.py`
lines 157–161): strip the extracted text, then raise `ValueError` (carrying
the stripped text) when its length is below 4 or it contains `"Error"`;
otherwise the stripped text is the code sent back to the user. -/
def levanter_extract_validate (final_code : String) : Except String String :=
  let code_text := pyStrip final_code
  if code_text.length < 4 ∨ pyIn "Error" code_text = true then Except.error code_text
  else Except.ok code_text

/-- The extraction-validation step of the Raganork task (`src/main.py`
lines 242–246): strip the attribute value, then raise `ValueError` when its
length is below 4; otherwise the stripped text is the code sent back. -/
def raganork_extract_validate (final_code : String) : Except String String :=
  let code_text := pyStrip final_code
  if code_text.length < 4 then Except.error code_text
  else Except.ok code_text

example : levanter_extract_validate " AB12CD " = Except.ok "AB12CD" := rfl
example : levanter_extract_validate "AB1" = Except.error "AB1" := rfl
example : levanter_extract_validate "xxError" = Except.error "xxError" := rfl
example : levanter_extract_validate "error123" = Except.ok "error123" := rfl

/-- Model of `re.match` on the pattern `^\+(\d+)(.*)$` from the Raganork task,
returning `(country_code, number_body)` as the task builds them:
`country_code = "+" + group(1)` and `number_body = group(2)`.  `\d+` is
greedy, so `group(1)` is the maximal digit run after `'+'`; `.` does not
match a newline, and `$` also matches just before a final newline, so the
match fails when a newline occurs before the end (other than as the final
character, which is then left out of `group(2)`).  (`\d` is modelled as an
ASCII digit; the script's inputs are ASCII phone numbers.) -/
def raganorkParse (s : String) : Option (String × String) :=
  match s.data with
  | [] => none
  | c0 :: rest =>
    if c0 = '+' then
      let digits := rest.takeWhile Char.isDigit
      let tail := rest.dropWhile Char.isDigit
      let body := if tail.getLast? = some '\n' then tail.dropLast else tail
      if digits = [] then none
      else if body.contains '\n' then none
      else some (String.mk ('+' :: digits), String.mk body)
    else none

/-- The Raganork task's leading-zero removal (`src/main.py` lines 193–194):
`if number_body.startswith('0'): number_body = number_body[1:]`. -/
def stripLeadingZero (number_body : String) : String :=
  if number_body.data.head? = some '0' then String.mk (number_body.data.drop 1)
  else number_body

/-- Whether the list does not begin with an ASCII digit. -/
def headNotDigit (l : List Char) : Bool :=
  match l with
  | [] => true
  | c :: _ => !c.isDigit

example : raganorkParse "+2340812345" = some ("+2340812345", "") := by decide
example : raganorkParse "+1a" = some ("+1", "a") := by decide
example : raganorkParse "12345" = none := by decide
example : raganorkParse "+abc" = none := by decide
example : stripLeadingZero "00123" = "0123" := by decide

/-- The spec's input-validation pattern, written from the spec's words: a
phone number is well-formed iff it matches `^\+\d+$` — a leading `'+'`
followed by one or more digits and nothing else. -/
def spec_phone_ok (s : String) : Bool :=
  match s.data with
  | '+' :: rest => !rest.isEmpty && rest.all Char.isDigit
  | _ => false

example : spec_phone_ok "+2348012345678" = true := by decide
example : spec_phone_ok "+1a" = false := by decide
example : spec_phone_ok "abc" = false := by decide

/-- Observable events of one automation job, in order: browser launch,
page creation, route installation, the numbered awaited statements of the
`try` block, the success/failure/invalid-input replies, and
`browser.close()`. -/
inductive Ev where
  | launch
  | newPage
  | route
  | step (i : Nat)
  | replySuccess
  | replyFailure
  | replyInvalid
  | close
  deriving DecidableEq, Repr

/-- How the `try` block of an automation task plays out: every awaited
statement succeeds and validation passes (`completed`); all statements run
but the extraction-validation check raises `ValueError`
(`extractionInvalid`); or statement `i` raises mid-sequence (`raisedAt i`). -/
inductive JobOutcome where
  | completed
  | extractionInvalid
  | raisedAt (i : Nat)
  deriving DecidableEq, Repr

/-- Number of awaited page-interaction statements in the Levanter `try`
block before the validation check (goto, two guarded clicks, waits, fill,
click, waits, inner_text). -/
def LEVANTER_STEPS : Nat := 10

/-- Number of awaited page-interaction statements in the Raganork `try`
block before the validation check. -/
def RAGANORK_STEPS : Nat := 11

/-- The events of a task's `try` block for a given outcome, paired with
whether the block raised (so that the `except` clause runs). -/
def tryBodyEvents (numSteps : Nat) : JobOutcome → List Ev × Bool
  | JobOutcome.completed => ((List.range numSteps).map Ev.step ++ [Ev.replySuccess], false)
  | JobOutcome.extractionInvalid => ((List.range numSteps).map Ev.step, true)
  | JobOutcome.raisedAt i => ((List.range (min i numSteps)).map Ev.step, true)

/-- The `try`/`except`/`finally` structure shared by both tasks: the `try`
body runs, the `except` clause replies with a failure message when the body
raised, and the `finally` clause closes the browser unconditionally. -/
def runJobBody (numSteps : Nat) (o : JobOutcome) : List Ev :=
  (tryBodyEvents numSteps o).1 ++
    (if (tryBodyEvents numSteps o).2 then [Ev.replyFailure] else []) ++ [Ev.close]

/-- Event trace of `levanter_pairing_automation_task` from `src/main.py`:
no input validation is performed; the browser is launched for every mobile
number, then the guarded step sequence runs under try/except/finally. -/
def levanter_pairing_automation_task (_mobile : String) (o : JobOutcome) : List Ev :=
  [Ev.launch, Ev.newPage, Ev.route] ++ runJobBody LEVANTER_STEPS o

/-- Event trace of `raganork_pairing_automation_task` from `src/main.py`:
the mobile number is matched against `^\+(\d+)(.*)$` first; on no match the
task replies "Invalid mobile number format." and returns without launching
a browser; otherwise the browser is launched and the step sequence runs
under try/except/finally. -/
def raganork_pairing_automation_task (mobile : String) (o : JobOutcome) : List Ev :=
  match raganorkParse mobile with
  | none => [Ev.replyInvalid]
  | some _ => [Ev.launch, Ev.newPage, Ev.route] ++ runJobBody RAGANORK_STEPS o

example :
    (levanter_pairing_automation_task "+123" JobOutcome.completed).count Ev.close = 1 := by
  decide
example :
    (raganork_pairing_automation_task "+123" (JobOutcome.raisedAt 3)).count Ev.close = 1 := by
  decide
example : raganork_pairing_automation_task "abc" JobOutcome.completed = [Ev.replyInvalid] := by
  decide

theorem count_close_map_step (n : Nat) :
    ((List.range n).map Ev.step).count Ev.close = 0 := by
  simp [List.count_eq_zero, List.mem_map]

theorem runJobBody_count_close (n : Nat) (o : JobOutcome) :
    (runJobBody n o).count Ev.close = 1 := by
  cases o <;>
    simp [runJobBody, tryBodyEvents, List.count_append, count_close_map_step]

theorem runJobBody_getLast (n : Nat) (o : JobOutcome) :
    (runJobBody n o).getLast? = some Ev.close := by
  cases o <;>
    simp [runJobBody, tryBodyEvents, ← List.append_assoc, List.getLast?_concat]

theorem getLast?_cons_some {α : Type} {a b : α} {l : List α} (h : l.getLast? = some b) :
    (a :: l).getLast? = some b := by
  cases l with
  | nil => simp at h
  | cons c t => rw [List.getLast?_cons_cons]; exact h

/-- Claim C1: in both automation tasks, once the browser has been launched,
`browser.close()` is executed exactly once and it is the final action of the
job, on every exit path: normal completion, extraction-validation failure,
and an exception raised at any statement of the step sequence. -/
theorem claim_C1_browser_closed_exactly_once (mobile : String) (o : JobOutcome) :
    (Ev.launch ∈ levanter_pairing_automation_task mobile o →
      (levanter_pairing_automation_task mobile o).count Ev.close = 1 ∧
      (levanter_pairing_automation_task mobile o).getLast? = some Ev.close) ∧
    (Ev.launch ∈ raganork_pairing_automation_task mobile o →
      (raganork_pairing_automation_task mobile o).count Ev.close = 1 ∧
      (raganork_pairing_automation_task mobile o).getLast? = some Ev.close) := by
  constructor
  · intro _
    refine ⟨?_, ?_⟩
    · simp [levanter_pairing_automation_task, List.count_append, List.count_cons,
        runJobBody_count_close]
    · simp only [levanter_pairing_automation_task, List.cons_append, List.nil_append,
        List.getLast?_cons_cons]
      exact getLast?_cons_some (runJobBody_getLast _ _)
  · intro hmem
    cases hp : raganorkParse mobile with
    | none =>
      exfalso
      simp [raganork_pairing_automation_task, hp] at hmem
    | some v =>
      refine ⟨?_, ?_⟩
      · simp [raganork_pairing_automation_task, hp, List.count_append, List.count_cons,
          runJobBody_count_close]
      · simp only [raganork_pairing_automation_task, hp, List.cons_append, List.nil_append,
          List.getLast?_cons_cons]
        exact getLast?_cons_some (runJobBody_getLast _ _)

/-- Witness for C1: a concrete job (exception raised at statement 3 of the
Raganork sequence, and the same outcome for Levanter) launches the browser
and closes it exactly once, as the final action. -/
theorem claim_C1_browser_closed_exactly_once_witness :
    ((levanter_pairing_automation_task "+123" (JobOutcome.raisedAt 3)).count Ev.close = 1 ∧
      (levanter_pairing_automation_task "+123" (JobOutcome.raisedAt 3)).getLast? =
        some Ev.close) ∧
    ((raganork_pairing_automation_task "+123" (JobOutcome.raisedAt 3)).count Ev.close = 1 ∧
      (raganork_pairing_automation_task "+123" (JobOutcome.raisedAt 3)).getLast? =
        some Ev.close) :=
  ⟨(claim_C1_browser_closed_exactly_once "+123" (JobOutcome.raisedAt 3)).1 (by decide),
   (claim_C1_browser_closed_exactly_once "+123" (JobOutcome.raisedAt 3)).2 (by decide)⟩

/-- Claim C2: when every attempt's click leaves the page off the expected
home prefix, `safe_click_and_correct` performs exactly 3 clicks and exactly
3 go-back calls, then ends in the redirect-loop-exceeded failure (the
`TimeoutError` about constant redirection); it never clicks a fourth time. -/
theorem claim_C2_redirect_loop_bound (click : Nat → ClickRes)
    (h : ∀ n, 1 ≤ n → n ≤ MAX_ATTEMPTS → click n = ClickRes.redirected) :
    safe_click_and_correct click 1 = ⟨3, 3, GuardResult.redirectLoopExceeded⟩ := by
  have h1 := h 1 (by omega) (by decide)
  have h2 := h 2 (by omega) (by decide)
  have h3 := h 3 (by omega) (by decide)
  simp [safe_click_and_correct, MAX_ATTEMPTS, h1, h2, h3]

/-- A click that is redirected on every attempt. -/
def alwaysRedirect : Nat → ClickRes := fun _ => ClickRes.redirected

/-- Witness for C2 at the always-redirecting click. -/
theorem claim_C2_redirect_loop_bound_witness :
    safe_click_and_correct alwaysRedirect 1 = ⟨3, 3, GuardResult.redirectLoopExceeded⟩ :=
  claim_C2_redirect_loop_bound alwaysRedirect (fun _ _ _ => rfl)

/-- Claim C3: if the click (or any statement of the attempt) raises at an
attempt within the bound, the exception propagates immediately as a hard
failure: exactly the one raising click is performed, no go-back is issued,
and no further attempt is made. -/
theorem claim_C3_exception_propagates (click : Nat → ClickRes) (a : Nat)
    (ha : a ≤ MAX_ATTEMPTS) (hr : click a = ClickRes.raises) :
    safe_click_and_correct click a = ⟨1, 0, GuardResult.hardFailure⟩ := by
  have hna : ¬ a > MAX_ATTEMPTS := by omega
  rw [safe_click_and_correct]
  simp [hna, hr]

/-- A click that raises on every attempt. -/
def alwaysRaises : Nat → ClickRes := fun _ => ClickRes.raises

/-- Witness for C3 at a click raising on the first attempt. -/
theorem claim_C3_exception_propagates_witness :
    safe_click_and_correct alwaysRaises 1 = ⟨1, 0, GuardResult.hardFailure⟩ :=
  claim_C3_exception_propagates alwaysRaises 1 (by decide) rfl

/-- Claim C5: both extractors first trim surrounding whitespace; extraction
fails exactly when the trimmed length is below the minimum 4 or (for
Levanter) the trimmed string contains the forbidden substring `"Error"`;
`" AB12CD "` is trimmed to `"AB12CD"` and returned verbatim, while a
trimmed string of length 3 is rejected. -/
theorem claim_C5_extract_trim_and_validate (raw : String) :
    ((levanter_extract_validate raw = Except.error (pyStrip raw) ↔
        (pyStrip raw).length < 4 ∨ pyIn "Error" (pyStrip raw) = true) ∧
      (raganork_extract_validate raw = Except.error (pyStrip raw) ↔
        (pyStrip raw).length < 4)) ∧
    levanter_extract_validate " AB12CD " = Except.ok "AB12CD" ∧
    raganork_extract_validate " AB12CD " = Except.ok "AB12CD" ∧
    levanter_extract_validate "AB1" = Except.error "AB1" ∧
    raganork_extract_validate " AB1 " = Except.error "AB1" := by
  refine ⟨⟨?_, ?_⟩, rfl, rfl, rfl, rfl⟩
  · unfold levanter_extract_validate
    by_cases hc : (pyStrip raw).length < 4 ∨ pyIn "Error" (pyStrip raw) = true
    · rw [if_pos hc]
      simp [hc]
    · rw [if_neg hc]
      simp [hc]
  · unfold raganork_extract_validate
    by_cases hc : (pyStrip raw).length < 4
    · rw [if_pos hc]
      simp [hc]
    · rw [if_neg hc]
      simp [hc]

/-- Claim C10: the Levanter forbidden-substring check is case-sensitive
(`"Error" in code_text`): any trimmed string of length at least 4 that
contains lowercase `"error"` but not `"Error"` is accepted and returned as
the pairing code. -/
theorem claim_C10_error_check_case_sensitive (raw : String)
    (hlen : 4 ≤ (pyStrip raw).length)
    (hlow : pyIn "error" (pyStrip raw) = true)
    (hup : pyIn "Error" (pyStrip raw) = false) :
    levanter_extract_validate raw = Except.ok (pyStrip raw) := by
  have hcond : ¬((pyStrip raw).length < 4 ∨ pyIn "Error" (pyStrip raw) = true) := by
    rintro (hlt | herr)
    · omega
    · rw [hup] at herr
      exact Bool.false_ne_true herr
  unfold levanter_extract_validate
  rw [if_neg hcond]

/-- Witness for C10 at the string `" error123 "`. -/
theorem claim_C10_error_check_case_sensitive_witness :
    levanter_extract_validate " error123 " = Except.ok (pyStrip " error123 ") :=
  claim_C10_error_check_case_sensitive " error123 " (by decide) (by decide) (by decide)

/-- A trimmed extraction result of length 60, exceeding the spec's default
maximum of roughly 50 characters. -/
def longCode : String := String.mk (List.replicate 60 'A')

/-- Counterexample to C6: a trimmed extraction result of length 60 (beyond
the spec's maximum of roughly 50) is accepted and returned by both
extractors rather than rejected. -/
theorem claim_C6_counterexample_no_max_length :
    50 < (pyStrip longCode).length ∧
    levanter_extract_validate longCode = Except.ok (pyStrip longCode) ∧
    raganork_extract_validate longCode = Except.ok (pyStrip longCode) :=
  ⟨by decide, rfl, rfl⟩

/-- Claim C6 as amended: the extractors enforce only the minimum length 4
(plus, for Levanter, the absence of `"Error"`); no maximum length is
enforced, so every trimmed result longer than 50 characters is returned
verbatim. -/
theorem claim_C6_amended_only_min_length (raw : String)
    (hlen : 50 < (pyStrip raw).length)
    (hup : pyIn "Error" (pyStrip raw) = false) :
    levanter_extract_validate raw = Except.ok (pyStrip raw) ∧
    raganork_extract_validate raw = Except.ok (pyStrip raw) := by
  have hcond : ¬((pyStrip raw).length < 4 ∨ pyIn "Error" (pyStrip raw) = true) := by
    rintro (hlt | herr)
    · omega
    · rw [hup] at herr
      exact Bool.false_ne_true herr
  have hlen4 : ¬(pyStrip raw).length < 4 := by omega
  constructor
  · unfold levanter_extract_validate
    rw [if_neg hcond]
  · unfold raganork_extract_validate
    rw [if_neg hlen4]

/-- Witness for amended C6 at the 60-character result. -/
theorem claim_C6_amended_only_min_length_witness :
    levanter_extract_validate longCode = Except.ok (pyStrip longCode) ∧
    raganork_extract_validate longCode = Except.ok (pyStrip longCode) :=
  claim_C6_amended_only_min_length longCode (by decide) (by decide)

/-- Claim C7: `route_handler` aborts a request exactly when its resource
category is one of image, font, media, stylesheet, or its URL contains some
entry of `AD_BLOCK_DOMAINS` as a substring; in particular an image request
is aborted regardless of URL, and an xhr request to a URL containing no
deny-list entry is allowed. -/
theorem claim_C7_route_handler_block_iff (rt url : String) :
    (route_handler rt url = true ↔
      ((rt = "image" ∨ rt = "font" ∨ rt = "media" ∨ rt = "stylesheet") ∨
        ∃ d ∈ AD_BLOCK_DOMAINS, pyIn d url = true)) ∧
    route_handler "image" url = true ∧
    route_handler "xhr" "https://x.io/q" = false := by
  refine ⟨?_, ?_, by decide⟩
  · simp [route_handler, List.any_eq_true, List.contains, List.elem_iff]
  · simp [route_handler]

/-- Claim C9: any request whose URL contains some deny-list entry as a plain
substring is aborted regardless of resource category; the single letter pair
`"ad"` is such an entry, so even a document request to the target site is
aborted when its path merely contains `"ad"` (as in `"upload"`). -/
theorem claim_C9_substring_block_any_category (rt url : String)
    (h : ∃ d ∈ AD_BLOCK_DOMAINS, pyIn d url = true) :
    route_handler rt url = true := by
  simp [route_handler, List.any_eq_true]
  tauto

/-- Witness for C9: a document request to the Levanter site's own `upload`
path is aborted because `"upload"` contains the deny-list entry `"ad"`. -/
theorem claim_C9_substring_block_any_category_witness :
    route_handler "document" "https://levanter-delta.vercel.app/upload" = true :=
  claim_C9_substring_block_any_category "document" "https://levanter-delta.vercel.app/upload"
    ⟨"ad", by decide, by decide⟩

theorem replyInvalid_not_mem_runJobBody (n : Nat) (o : JobOutcome) :
    Ev.replyInvalid ∉ runJobBody n o := by
  cases o <;> simp [runJobBody, tryBodyEvents, List.mem_append, List.mem_map]

theorem contains_false_iff_not_mem (l : List Char) (a : Char) :
    l.contains a = false ↔ a ∉ l := by
  rw [← Bool.not_eq_true]
  constructor
  · intro h hm
    exact h ((List.elem_iff).2 hm)
  · intro h hc
    exact h ((List.elem_iff).1 hc)

theorem dropWhile_cons_head_false {α : Type} (p : α → Bool) (l : List α) (c : α) (t : List α)
    (h : l.dropWhile p = c :: t) : p c = false := by
  have h2 := List.head?_dropWhile_not p l
  rw [h] at h2
  simpa using h2

theorem dropLast_cons_head {α : Type} (l : List α) (c : α) (t : List α)
    (h : l.dropLast = c :: t) : ∃ t2, l = c :: t2 := by
  cases l with
  | nil => simp at h
  | cons a m =>
    cases m with
    | nil => simp at h
    | cons b m2 =>
      refine ⟨b :: m2, ?_⟩
      have : (a :: b :: m2).dropLast = a :: (b :: m2).dropLast := rfl
      rw [this] at h
      exact congrArg (fun x => x :: b :: m2) (List.head_eq_of_cons_eq h).symm ▸ rfl

theorem body_contains_newline_iff (tail : List Char) :
    ((if tail.getLast? = some '\n' then tail.dropLast else tail).contains '\n' = false ↔
      tail.dropLast.contains '\n' = false) := by
  by_cases hl : tail.getLast? = some '\n'
  · rw [if_pos hl]
  · rw [if_neg hl]
    cases he : tail.getLast? with
    | none =>
      have htail : tail = [] := List.getLast?_eq_none_iff.1 he
      subst htail
      simp
    | some a =>
      have ha : a ≠ '\n' := by
        intro hh
        exact hl (by rw [he, hh])
      have hne : tail ≠ [] := by
        intro hh
        rw [hh] at he
        simp at he
      have hga : tail.getLast hne = a := by
        have h3 := List.getLast?_eq_getLast tail hne
        rw [he] at h3
        exact (Option.some.injEq _ _ ▸ h3.symm :)
      have hdecomp : tail.dropLast ++ [a] = tail := by
        rw [← hga]
        exact List.dropLast_append_getLast hne
      rw [contains_false_iff_not_mem, contains_false_iff_not_mem]
      constructor
      · intro h hm
        exact h (by rw [← hdecomp]; exact List.mem_append_left _ hm)
      · intro h hm
        rw [← hdecomp] at hm
        rcases List.mem_append.mp hm with h1 | h1
        · exact h h1
        · simp at h1
          exact ha h1.symm

theorem raganorkParse_isSome_iff (s : String) :
    (raganorkParse s).isSome = true ↔
      ∃ c rest, s.data = '+' :: c :: rest ∧ c.isDigit = true ∧
        ((c :: rest).dropWhile Char.isDigit).dropLast.contains '\n' = false := by
  constructor
  · intro h
    simp only [raganorkParse] at h
    cases hs : s.data with
    | nil =>
      rw [hs] at h
      simp at h
    | cons c0 rest0 =>
      rw [hs] at h
      simp only at h
      by_cases h0 : c0 = '+'
      case neg =>
        rw [if_neg h0] at h
        simp at h
      subst h0
      rw [if_pos rfl] at h
      by_cases hne : rest0.takeWhile Char.isDigit = []
      · rw [if_pos hne] at h
        simp at h
      · rw [if_neg hne] at h
        by_cases hb :
            ((if (rest0.dropWhile Char.isDigit).getLast? = some '\n' then
                (rest0.dropWhile Char.isDigit).dropLast
              else rest0.dropWhile Char.isDigit).contains '\n') = true
        · rw [if_pos hb] at h
          simp at h
        · cases hr : rest0 with
          | nil =>
            rw [hr] at hne
            simp at hne
          | cons c1 r1 =>
            rw [hr] at hne
            have hd : c1.isDigit = true := by
              by_contra hdn
              have hdf : c1.isDigit = false := by simpa using hdn
              exact hne (by simp [List.takeWhile_cons, hdf])
            refine ⟨c1, r1, rfl, hd, ?_⟩
            have hbf :
                ((if (rest0.dropWhile Char.isDigit).getLast? = some '\n' then
                    (rest0.dropWhile Char.isDigit).dropLast
                  else rest0.dropWhile Char.isDigit).contains '\n') = false := by
              simpa using hb
            rw [hr] at hbf
            exact (body_contains_newline_iff _).1 hbf
  · rintro ⟨c, rest, heq, hcd, hcon⟩
    simp only [raganorkParse, heq]
    rw [if_pos trivial]
    have hne : (c :: rest).takeWhile Char.isDigit ≠ [] := by
      simp [List.takeWhile_cons, hcd]
    rw [if_neg hne]
    have hbf :
        ((if ((c :: rest).dropWhile Char.isDigit).getLast? = some '\n' then
            ((c :: rest).dropWhile Char.isDigit).dropLast
          else (c :: rest).dropWhile Char.isDigit).contains '\n') = false :=
      (body_contains_newline_iff _).2 hcon
    rw [if_neg (fun hh => Bool.false_ne_true (hbf ▸ hh))]
    simp

/-- Counterexample to C4: `"+1a"` does not match the spec's pattern
`^\+\d+$`, yet the Raganork task accepts it (its regex tolerates trailing
non-digits) and launches the browser instead of replying invalid-input; the
Levanter task performs no validation at all and launches the browser even
for `"letters"`. -/
theorem claim_C4_counterexample_no_strict_validation :
    spec_phone_ok "+1a" = false ∧
    Ev.launch ∈ raganork_pairing_automation_task "+1a" JobOutcome.completed ∧
    Ev.replyInvalid ∉ raganork_pairing_automation_task "+1a" JobOutcome.completed ∧
    spec_phone_ok "letters" = false ∧
    Ev.launch ∈ levanter_pairing_automation_task "letters" JobOutcome.completed :=
  ⟨by decide, by decide, by decide, by decide, by decide⟩

/-- Claim C4 as amended: the Levanter task launches the browser for every
phone number (it has no validation); the Raganork task replies
invalid-input without launching exactly when the number lacks a `'+'`
followed by at least one digit (or an interior newline blocks its regex) —
so numbers with a valid `'+'`-digit prefix but trailing garbage still
launch the browser. -/
theorem claim_C4_amended_validation_gate (mobile : String) (o : JobOutcome) :
    Ev.launch ∈ levanter_pairing_automation_task mobile o ∧
    (Ev.launch ∈ raganork_pairing_automation_task mobile o ↔
      ∃ c rest, mobile.data = '+' :: c :: rest ∧ c.isDigit = true ∧
        ((c :: rest).dropWhile Char.isDigit).dropLast.contains '\n' = false) ∧
    (Ev.replyInvalid ∈ raganork_pairing_automation_task mobile o ↔
      ¬∃ c rest, mobile.data = '+' :: c :: rest ∧ c.isDigit = true ∧
        ((c :: rest).dropWhile Char.isDigit).dropLast.contains '\n' = false) := by
  have hiff := raganorkParse_isSome_iff mobile
  refine ⟨by simp [levanter_pairing_automation_task], ?_, ?_⟩
  · rw [← hiff]
    cases hp : raganorkParse mobile with
    | none => simp [raganork_pairing_automation_task, hp]
    | some v => simp [raganork_pairing_automation_task, hp]
  · rw [← hiff]
    cases hp : raganorkParse mobile with
    | none => simp [raganork_pairing_automation_task, hp]
    | some v =>
      simp [raganork_pairing_automation_task, hp, replyInvalid_not_mem_runJobBody]

theorem stripLeadingZero_of_headNotDigit (b : String) (h : headNotDigit b.data = true) :
    stripLeadingZero b = b := by
  unfold stripLeadingZero
  rw [if_neg]
  intro heq
  cases hb : b.data with
  | nil =>
    rw [hb] at heq
    simp at heq
  | cons c t =>
    rw [hb] at heq h
    simp [headNotDigit] at h
    simp at heq
    rw [heq] at h
    exact absurd h (by decide)

theorem raganorkParse_body_headNotDigit (s cc body : String)
    (h : raganorkParse s = some (cc, body)) :
    headNotDigit body.data = true := by
  simp only [raganorkParse] at h
  cases hs : s.data with
  | nil =>
    rw [hs] at h
    simp at h
  | cons c0 rest0 =>
    rw [hs] at h
    simp only at h
    by_cases h0 : c0 = '+'
    case neg =>
      rw [if_neg h0] at h
      simp at h
    subst h0
    rw [if_pos rfl] at h
    by_cases hne : rest0.takeWhile Char.isDigit = []
    · rw [if_pos hne] at h
      simp at h
    · rw [if_neg hne] at h
      by_cases hb :
          ((if (rest0.dropWhile Char.isDigit).getLast? = some '\n' then
              (rest0.dropWhile Char.isDigit).dropLast
            else rest0.dropWhile Char.isDigit).contains '\n') = true
      · rw [if_pos hb] at h
        simp at h
      · rw [if_neg hb] at h
        have hbody := congrArg Prod.snd (Option.some.inj h)
        dsimp only at hbody
        have hdata : body.data =
            (if (rest0.dropWhile Char.isDigit).getLast? = some '\n' then
                (rest0.dropWhile Char.isDigit).dropLast
              else rest0.dropWhile Char.isDigit) := by
          rw [← hbody]
        rw [hdata]
        by_cases hl : (rest0.dropWhile Char.isDigit).getLast? = some '\n'
        · rw [if_pos hl]
          cases hdl : (rest0.dropWhile Char.isDigit).dropLast with
          | nil => rfl
          | cons c t =>
            obtain ⟨t2, ht⟩ := dropLast_cons_head _ c t hdl
            have hcf := dropWhile_cons_head_false Char.isDigit rest0 c t2 ht
            simp [headNotDigit, hcf]
        · rw [if_neg hl]
          cases htl : rest0.dropWhile Char.isDigit with
          | nil => rfl
          | cons c t =>
            have hcf := dropWhile_cons_head_false Char.isDigit rest0 c t htl
            simp [headNotDigit, hcf]

/-- Counterexample to C8: the code's leading-zero removal strips at most one
zero — applied to a national part `"00123"` it yields `"0123"`, not the
claimed `"123"`; moreover the greedy digit group consumes every digit after
`'+'`, so for an all-digit number the national part is empty and never
carries zeros at all. -/
theorem claim_C8_counterexample_single_zero :
    stripLeadingZero "00123" = "0123" ∧ ("0123" : String) ≠ "123" ∧
    raganorkParse "+2340012345" = some ("+2340012345", "") :=
  ⟨by decide, by decide, by decide⟩

/-- Claim C8 as amended: in every successful Raganork parse the national
part (`group(2)` of `^\+(\d+)(.*)$`) never begins with a digit — the greedy
digit group has consumed all leading digits — so the code's
single-leading-zero removal leaves it unchanged; no multi-zero stripping
ever occurs. -/
theorem claim_C8_amended_zero_strip_noop (s cc body : String)
    (h : raganorkParse s = some (cc, body)) :
    headNotDigit body.data = true ∧ stripLeadingZero body = body := by
  have hnd := raganorkParse_body_headNotDigit s cc body h
  exact ⟨hnd, stripLeadingZero_of_headNotDigit body hnd⟩

/-- Witness for amended C8 at the parse of `"+1a"`. -/
theorem claim_C8_amended_zero_strip_noop_witness :
    headNotDigit ("a" : String).data = true ∧ stripLeadingZero "a" = "a" :=
  claim_C8_amended_zero_strip_noop "+1a" "+1" "a" (by decide)
